import Mathlib

/-!
Shallow embedding of `src/js/main.js`, the UI state controller of the blog
theme.  The script consists of three IIFEs executed once at page load:

1. `clickMenu 770`: when `window.innerWidth <= 770` it installs an `onclick`
   handler on `#headerMenu` (which stops propagation and toggles the
   `active` / `nav-show` classes together based on the button's current
   `active` state) and a `click` listener on `body` (which unconditionally
   removes both classes).
2. back-to-top: installs a `scroll` listener that computes
   `Math.max(document.documentElement.scrollTop, document.body.scrollTop)`
   and adds `back-to-top-show` when it exceeds 200, removes it otherwise.
3. hover-on-demo: selects `.grid-item` elements into a local variable and
   does nothing with them.

The only mutable state the script touches is class membership on three
elements, modelled as three booleans.  Scroll offsets are natural numbers.
-/

/-- Transient UI state: class membership on the three elements touched by
`main.js`.  `btnActive` is the `active` class on `#headerMenu`, `navShow`
the `nav-show` class on `#headerNav`, `backToTopShow` the
`back-to-top-show` class on `.back-to-top`. -/
structure PageState where
  btnActive : Bool
  navShow : Bool
  backToTopShow : Bool
deriving DecidableEq

/-- The `menuBtn.onclick` handler (main.js lines 14-23).  It first calls
`e.stopPropagation()` (the returned boolean records that propagation was
stopped), then branches on `menuBtn.classList.contains('active')`: if
present it removes `active` and `nav-show`, otherwise it adds `nav-show`
and `active`. -/
def menuBtnOnclick (s : PageState) : PageState × Bool :=
  let stopped := true
  if s.btnActive then
    ({ s with btnActive := false, navShow := false }, stopped)
  else
    ({ s with navShow := true, btnActive := true }, stopped)

/-- The `body` click listener (main.js lines 24-27): unconditionally
removes `nav-show` from the panel and `active` from the button. -/
def bodyClickListener (s : PageState) : PageState :=
  { s with navShow := false, btnActive := false }

/-- The `window` scroll listener (main.js lines 36-46):
`scrollTop = Math.max(document.documentElement.scrollTop,
document.body.scrollTop)`; if `scrollTop > 200` it adds
`back-to-top-show`, else removes it. -/
def scrollListener (docScrollTop bodyScrollTop : Nat) (s : PageState) : PageState :=
  let scrollTop := max docScrollTop bodyScrollTop
  if scrollTop > 200 then
    { s with backToTopShow := true }
  else
    { s with backToTopShow := false }

/-- Events the page can receive: a scroll (carrying the two scroll-offset
sources), a click originating on the menu button, and a click originating
elsewhere on the document body. -/
inductive Event where
  | scroll (docScrollTop bodyScrollTop : Nat)
  | menuClick
  | bodyClick
deriving DecidableEq

/-- One event dispatch.  `w` is `window.innerWidth` as sampled by the
`clickMenu` IIFE at load: when `w ≤ 770` the menu handlers are attached,
otherwise they are not and click events change nothing.  A click on the
menu button runs the button handler first; the body listener would run
afterwards by bubbling, but only if the handler had not stopped
propagation. -/
def step (w : Nat) (s : PageState) : Event → PageState
  | .scroll d b => scrollListener d b s
  | .menuClick =>
      if w ≤ 770 then
        let r := menuBtnOnclick s
        if r.2 then r.1 else bodyClickListener r.1
      else s
  | .bodyClick =>
      if w ≤ 770 then bodyClickListener s else s

/-- Run a sequence of events from a state. -/
def run (w : Nat) (s : PageState) (es : List Event) : PageState :=
  es.foldl (step w) s

/-- The state at page load: none of the three classes is present. -/
def pageInit : PageState := ⟨false, false, false⟩

/-- The hover-on-demo IIFE (main.js lines 51-53): selects the `.grid-item`
elements into a local collection and performs no further action. -/
def hoverOnDemo (demoItems : List Unit) (s : PageState) : PageState :=
  let _items := demoItems
  s

/-- The whole script including the hover block: the hover IIFE runs once at
load, then events are dispatched as usual. -/
def runWithHover (w : Nat) (demoItems : List Unit) (s : PageState)
    (es : List Event) : PageState :=
  run w (hoverOnDemo demoItems s) es

/-- A DOM environment for the setup phase: the sampled viewport width and
which of the selector targets of `main.js` are present. -/
structure Dom where
  innerWidth : Nat
  hasHeaderMenu : Bool
  hasHeaderNav : Bool
  hasBody : Bool
  hasBackToTop : Bool
  hasBackToTopA : Bool
deriving DecidableEq

/-- Which listeners ended up registered after the script ran. -/
structure Registered where
  menuClick : Bool
  bodyClick : Bool
  scroll : Bool
deriving DecidableEq

/-- Execution of the top-level script over a `Dom`.  The three IIFEs run in
order; an uncaught exception aborts the rest of the script, keeping the
listeners registered so far.  Inside the first IIFE (entered only when
`innerWidth ≤ 770`), `menuBtn.onclick = ...` dereferences the
`#headerMenu` query result (throwing when absent), and
`document.querySelector('body').addEventListener(...)` dereferences the
`body` query result.  The second IIFE only stores the `.back-to-top`
query results and calls `window.addEventListener`, which cannot throw; a
null `.back-to-top` would fail later, inside the scroll handler, not at
setup.  The third IIFE cannot throw.  Returns the registered listeners
and whether the script completed without an exception. -/
def setupScript (dom : Dom) : Registered × Bool :=
  if dom.innerWidth ≤ 770 then
    if dom.hasHeaderMenu then
      if dom.hasBody then
        (⟨true, true, true⟩, true)
      else
        (⟨true, false, false⟩, false)
    else
      (⟨false, false, false⟩, false)
  else
    (⟨false, false, true⟩, true)

/-- Claim C1: after every scroll event the back-to-top class state is a pure
function of `max docScrollTop bodyScrollTop`: the class is present iff
that maximum strictly exceeds 200, regardless of the prior state and of
any earlier history. -/
theorem scroll_backToTop_pure (w d b : Nat) (s : PageState) :
    (step w s (Event.scroll d b)).backToTopShow = decide (200 < max d b) := by
  by_cases h : 200 < max d b <;> simp [step, scrollListener, h]

/-- Witness for `scroll_backToTop_pure` has no hypothesis, but the claim's
concrete threshold instances are recorded here: offset 199 and 200 leave
the class absent, 201 makes it present, and scrolling from 300 back to
100 removes it. -/
theorem scroll_threshold_instances :
    (step 500 pageInit (Event.scroll 199 0)).backToTopShow = false ∧
    (step 500 pageInit (Event.scroll 200 0)).backToTopShow = false ∧
    (step 500 pageInit (Event.scroll 201 0)).backToTopShow = true ∧
    (step 500 (step 500 pageInit (Event.scroll 300 0)) (Event.scroll 100 0)).backToTopShow
      = false := by
  decide

/-- Claim C2, counterexample: from the state where the button has `active`
but the panel lacks `nav-show`, two consecutive menu-button clicks at
width 500 do not return both elements to their original class state (the
panel ends with `nav-show` present). -/
theorem menuToggle_two_clicks_cex :
    step 500 (step 500 ⟨true, false, false⟩ Event.menuClick) Event.menuClick
      ≠ (⟨true, false, false⟩ : PageState) := by
  decide

/-- Claim C2 (amended): for width ≤ 770 a menu-button click toggles `active`
and `nav-show` together, decided by the button's current `active` state;
and provided the two classes agree beforehand (as they do in every state
reachable from page load), two consecutive clicks restore the original
state. -/
theorem menuToggle_toggle_and_restore (w : Nat) (hw : w ≤ 770) (s : PageState)
    (hsync : s.btnActive = s.navShow) :
    (step w s Event.menuClick).btnActive = !s.btnActive ∧
    (step w s Event.menuClick).navShow = !s.btnActive ∧
    step w (step w s Event.menuClick) Event.menuClick = s := by
  rcases s with ⟨a, n, t⟩
  simp only [PageState.mk.injEq] at hsync
  subst hsync
  cases a <;> simp [step, hw, menuBtnOnclick]

/-- Witness for `menuToggle_toggle_and_restore` at width 500 from the
load state. -/
theorem menuToggle_toggle_and_restore_witness :
    (step 500 pageInit Event.menuClick).btnActive = !pageInit.btnActive ∧
    (step 500 pageInit Event.menuClick).navShow = !pageInit.btnActive ∧
    step 500 (step 500 pageInit Event.menuClick) Event.menuClick = pageInit :=
  menuToggle_toggle_and_restore 500 (by decide) pageInit rfl

/-- Claim C3: when the width sampled at load exceeds 770, no sequence of
events ever changes the menu button's or the navigation panel's class
state: the menu feature is permanently inert. -/
theorem wide_viewport_inert (w : Nat) (hw : 770 < w) (s : PageState)
    (es : List Event) :
    (run w s es).btnActive = s.btnActive ∧ (run w s es).navShow = s.navShow := by
  induction es generalizing s with
  | nil => exact ⟨rfl, rfl⟩
  | cons e es ih =>
      have hstep : (step w s e).btnActive = s.btnActive ∧
          (step w s e).navShow = s.navShow := by
        cases e with
        | scroll d b =>
            by_cases h : 200 < max d b <;> simp [step, scrollListener, h]
        | menuClick => simp [step, Nat.not_le.mpr hw]
        | bodyClick => simp [step, Nat.not_le.mpr hw]
      have := ih (step w s e)
      exact ⟨hstep.1 ▸ this.1, hstep.2 ▸ this.2⟩

/-- Witness for `wide_viewport_inert`: width 800, a click sequence from the
load state. -/
theorem wide_viewport_inert_witness :
    (run 800 pageInit [Event.menuClick, Event.bodyClick]).btnActive
        = pageInit.btnActive ∧
    (run 800 pageInit [Event.menuClick, Event.bodyClick]).navShow
        = pageInit.navShow :=
  wide_viewport_inert 800 (by decide) pageInit [Event.menuClick, Event.bodyClick]

/-- Claim C4: for width ≤ 770 a click reaching the body handler
unconditionally clears both `active` and `nav-show`, whatever the prior
state. -/
theorem bodyClick_closes (w : Nat) (hw : w ≤ 770) (s : PageState) :
    (step w s Event.bodyClick).btnActive = false ∧
    (step w s Event.bodyClick).navShow = false := by
  simp [step, hw, bodyClickListener]

/-- Witness for `bodyClick_closes` at width 500 from the open state. -/
theorem bodyClick_closes_witness :
    (step 500 ⟨true, true, false⟩ Event.bodyClick).btnActive = false ∧
    (step 500 ⟨true, true, false⟩ Event.bodyClick).navShow = false :=
  bodyClick_closes 500 (by decide) ⟨true, true, false⟩

/-- Claim C5: the menu-button handler always stops propagation, so a click
on the button never also runs the body close handler: the dispatch of a
button click is exactly the button handler's result, and in particular an
opening click leaves the menu open. -/
theorem menuClick_stops_propagation (w : Nat) (hw : w ≤ 770) (s : PageState) :
    (menuBtnOnclick s).2 = true ∧
    step w s Event.menuClick = (menuBtnOnclick s).1 ∧
    (s.btnActive = false → (step w s Event.menuClick).navShow = true) := by
  refine ⟨?_, ?_, ?_⟩
  · cases h : s.btnActive <;> simp [menuBtnOnclick, h]
  · simp [step, hw]
    cases h : s.btnActive <;> simp [menuBtnOnclick, h]
  · intro ha
    simp [step, hw, menuBtnOnclick, ha]

/-- Witness for `menuClick_stops_propagation` at width 500 from the load
state. -/
theorem menuClick_stops_propagation_witness :
    (menuBtnOnclick pageInit).2 = true ∧
    step 500 pageInit Event.menuClick = (menuBtnOnclick pageInit).1 ∧
    (pageInit.btnActive = false → (step 500 pageInit Event.menuClick).navShow = true) :=
  menuClick_stops_propagation 500 (by decide) pageInit

/-- Claim C6, counterexample: with width 500 and `#headerMenu` absent (all
other elements present), the script throws at the unguarded
`menuBtn.onclick` assignment, so the scroll listener — whose own elements
all exist — is never registered and the script does not complete. -/
theorem setup_not_guarded_cex :
    (setupScript ⟨500, false, true, true, true, true⟩).1.scroll = false ∧
    (setupScript ⟨500, false, true, true, true, true⟩).2 = false := by
  decide

/-- Claim C6 (amended): the script does not guard absent selector results.
Setup completes and attaches every applicable listener only when no
element dereferenced during setup is missing: when the width exceeds 770,
or when `#headerMenu` and `body` are both present.  Otherwise the first
IIFE throws and the scroll listener is lost with it. -/
theorem setup_succeeds_when_deref_present (dom : Dom)
    (h : dom.innerWidth ≤ 770 → dom.hasHeaderMenu = true ∧ dom.hasBody = true) :
    (setupScript dom).2 = true ∧ (setupScript dom).1.scroll = true ∧
    (dom.innerWidth ≤ 770 →
      (setupScript dom).1.menuClick = true ∧ (setupScript dom).1.bodyClick = true) := by
  by_cases hw : dom.innerWidth ≤ 770
  · obtain ⟨hm, hb⟩ := h hw
    simp [setupScript, hw, hm, hb]
  · simp [setupScript, hw]

/-- Witness for `setup_succeeds_when_deref_present` with every element
present at width 500. -/
theorem setup_succeeds_witness :
    (setupScript ⟨500, true, true, true, true, true⟩).2 = true ∧
    (setupScript ⟨500, true, true, true, true, true⟩).1.scroll = true ∧
    ((500 : Nat) ≤ 770 →
      (setupScript ⟨500, true, true, true, true, true⟩).1.menuClick = true ∧
      (setupScript ⟨500, true, true, true, true, true⟩).1.bodyClick = true) :=
  setup_succeeds_when_deref_present ⟨500, true, true, true, true, true⟩
    (fun _ => ⟨rfl, rfl⟩)

/-- Claim C7: the handlers are non-interacting.  A scroll event never
changes the menu button's or the panel's classes, and the two click
events never change the back-to-top class, for every width and state. -/
theorem handlers_independent (w d b : Nat) (s : PageState) :
    (step w s (Event.scroll d b)).btnActive = s.btnActive ∧
    (step w s (Event.scroll d b)).navShow = s.navShow ∧
    (step w s Event.menuClick).backToTopShow = s.backToTopShow ∧
    (step w s Event.bodyClick).backToTopShow = s.backToTopShow := by
  refine ⟨?_, ?_, ?_, ?_⟩
  · by_cases h : 200 < max d b <;> simp [step, scrollListener, h]
  · by_cases h : 200 < max d b <;> simp [step, scrollListener, h]
  · by_cases hw : w ≤ 770 <;>
      cases h : s.btnActive <;> simp [step, hw, menuBtnOnclick, h]
  · by_cases hw : w ≤ 770 <;> simp [step, hw, bodyClickListener]

/-- Claim C8: the hover-on-demo block is observably inert; the program with
it is equivalent to the program without it on every event sequence, for
every selected collection. -/
theorem hover_block_inert (w : Nat) (items : List Unit) (s : PageState)
    (es : List Event) :
    runWithHover w items s es = run w s es := rfl

/-- Claim C9: starting from the load state (no classes present), every
state reachable through any event sequence keeps the button's `active`
class and the panel's `nav-show` class in agreement. -/
theorem menu_nav_sync (w : Nat) (es : List Event) :
    (run w pageInit es).btnActive = (run w pageInit es).navShow := by
  have key : ∀ (es : List Event) (s : PageState), s.btnActive = s.navShow →
      (run w s es).btnActive = (run w s es).navShow := by
    intro es
    induction es with
    | nil => intro s hs; exact hs
    | cons e es ih =>
        intro s hs
        refine ih (step w s e) ?_
        cases e with
        | scroll d b =>
            by_cases h : 200 < max d b <;> simp [step, scrollListener, h, hs]
        | menuClick =>
            rcases s with ⟨a, n, t⟩
            simp only [PageState.mk.injEq] at hs
            subst hs
            by_cases hw : w ≤ 770
            · cases a <;> simp [step, hw, menuBtnOnclick]
            · simp [step, hw]
        | bodyClick =>
            by_cases hw : w ≤ 770 <;> simp [step, hw, bodyClickListener, hs]
  exact key es pageInit rfl

/-- Claim C10: the body close handler and the scroll handler at a fixed
offset are idempotent — running either twice equals running it once —
while the menu-button handler is not (it toggles, shown at a concrete
state). -/
theorem close_and_scroll_idempotent (w d b : Nat) (s : PageState) :
    step w (step w s Event.bodyClick) Event.bodyClick = step w s Event.bodyClick ∧
    step w (step w s (Event.scroll d b)) (Event.scroll d b)
        = step w s (Event.scroll d b) ∧
    step 500 (step 500 pageInit Event.menuClick) Event.menuClick
        ≠ step 500 pageInit Event.menuClick := by
  refine ⟨?_, ?_, by decide⟩
  · by_cases hw : w ≤ 770 <;> simp [step, hw, bodyClickListener]
  · by_cases h : 200 < max d b <;> simp [step, scrollListener, h]
